import Mathlib

/-!
Verification of the asynchronous-message consumer contract lifecycle of
pact-go (message/v3).  The Go wrapper in `src/message/v3/asynchronous_message.go`
is embedded shallowly; the native engine pieces it delegates to
(reification, description validation, pact-file merge) are modelled from
the specification, as marked on each definition.
-/

namespace PactV3

/-- A plain JSON-compatible scalar value. -/
inductive Scalar
  | str (s : String)
  | num (n : Int)
  | bool (b : Bool)
  | null
deriving DecidableEq, Repr

/-- A matching rule tag (spec section 3): `Equality`, `Regex`, `Type`,
`Format`, plus unknown external kinds which reification must reject. -/
inductive MatchingRule
  | equality
  | type
  | regex (pattern : String)
  | format (spec : String)
  | unknown (kind : String)
deriving DecidableEq, Repr

mutual
/-- A matcher-model content tree (spec section 3, MatcherNode): a literal
scalar, an ordered sequence, a string-keyed mapping, or a rule-annotated
node carrying an embedded example value. -/
inductive MatcherNode
  | lit (s : Scalar)
  | seq (xs : NodeList)
  | map (kvs : NodeMap)
  | rule (r : MatchingRule) (ex : MatcherNode)

/-- Ordered sequence of MatcherNode. -/
inductive NodeList
  | nil
  | cons (hd : MatcherNode) (tl : NodeList)

/-- Mapping from string keys to MatcherNode, in insertion order. -/
inductive NodeMap
  | nil
  | cons (key : String) (val : MatcherNode) (tl : NodeMap)
end

deriving instance DecidableEq for MatcherNode
deriving instance DecidableEq for NodeList
deriving instance DecidableEq for NodeMap

/-- A provider state (source `models.V3ProviderState`, declared outside src
and used by `Message.Given`): a name plus string-keyed parameters. -/
structure V3ProviderState where
  name : String
  parameters : List (String × Scalar)
deriving DecidableEq

/-- One message interaction record (spec section 3, MessageInteraction):
description, ordered provider states, matcher-form content, metadata.
This is the state held behind the source's native `messageHandle`. -/
structure MessageInteraction where
  description : String
  providerStates : List V3ProviderState
  content : MatcherNode
  metadata : List (String × String)
deriving DecidableEq

/-- The empty interaction a freshly created message handle holds
(source `messageserver.NewMessage()` before any fluent call). -/
def emptyInteraction : MessageInteraction :=
  { description := "", providerStates := [], content := .lit .null, metadata := [] }

mutual
/-- Target shape for type narrowing (source `Message.Type`, set by `AsType`):
a structural description of the Go type that `json.Unmarshal` decodes into. -/
inductive TargetShape
  | tString
  | tNumber
  | tBool
  | tList (elem : TargetShape)
  | tObject (fields : ShapeFields)

/-- Named fields of an object target shape. -/
inductive ShapeFields
  | nil
  | cons (key : String) (shape : TargetShape) (tl : ShapeFields)
end

deriving instance DecidableEq for TargetShape
deriving instance DecidableEq for ShapeFields

/-- The Go `error` values observable from the wrapper.  Constructors
`invalidInteraction`, `unsupportedMatcherKind` come from the spec's error
taxonomy for the native engine; `frameworkBug`, `typeNarrow` are the
errors built by `verifyMessageConsumerRaw` itself; `userError` stands for
arbitrary errors a consumer handler may return.  `handlerError` is the
wrapper kind the spec's taxonomy names (`HandlerError` wrapping the
handler's error); the code in src never constructs it. -/
inductive GoErr
  | invalidInteraction
  | unsupportedMatcherKind (kind : String)
  | frameworkBug
  | typeNarrow (typeName : String) (decodeErr : String)
  | userError (msg : String)
  | handlerError (inner : GoErr)
deriving DecidableEq

mutual
/-- Modelled from the spec: the native engine's reification of a
MatcherNode tree (spec 4.2), absent from src.  Recursive descent: literals
kept, sequences and mappings reified elementwise preserving order and
keys, rule-annotated nodes replaced by their embedded example value
(itself reified), unrecognized rule kinds fail with
`UnsupportedMatcherKind`. -/
def reifyNode : MatcherNode → Except GoErr MatcherNode
  | .lit s => .ok (.lit s)
  | .seq xs =>
    match reifyList xs with
    | .error e => .error e
    | .ok ys => .ok (.seq ys)
  | .map kvs =>
    match reifyMap kvs with
    | .error e => .error e
    | .ok kvs' => .ok (.map kvs')
  | .rule r ex =>
    match r with
    | .unknown kind => .error (.unsupportedMatcherKind kind)
    | _ => reifyNode ex

/-- Reify each element of a sequence in order. -/
def reifyList : NodeList → Except GoErr NodeList
  | .nil => .ok .nil
  | .cons hd tl =>
    match reifyNode hd with
    | .error e => .error e
    | .ok hd' =>
      match reifyList tl with
      | .error e => .error e
      | .ok tl' => .ok (.cons hd' tl')

/-- Reify each value of a mapping, preserving keys. -/
def reifyMap : NodeMap → Except GoErr NodeMap
  | .nil => .ok .nil
  | .cons k v tl =>
    match reifyNode v with
    | .error e => .error e
    | .ok v' =>
      match reifyMap tl with
      | .error e => .error e
      | .ok tl' => .ok (.cons k v' tl')
end

mutual
/-- Whether a node anywhere contains a MatchingRule annotation. -/
def hasRule : MatcherNode → Bool
  | .lit _ => false
  | .seq xs => hasRuleList xs
  | .map kvs => hasRuleMap kvs
  | .rule _ _ => true

/-- Whether any element of a sequence contains a rule annotation. -/
def hasRuleList : NodeList → Bool
  | .nil => false
  | .cons hd tl => hasRule hd || hasRuleList tl

/-- Whether any value of a mapping contains a rule annotation. -/
def hasRuleMap : NodeMap → Bool
  | .nil => false
  | .cons _ v tl => hasRule v || hasRuleMap tl
end

/-- Name of the target Go type, as `reflect.Type.Name()` renders it in the
source's narrowing error message. -/
def TargetShape.name : TargetShape → String
  | .tString => "string"
  | .tNumber => "number"
  | .tBool => "bool"
  | .tList _ => "list"
  | .tObject _ => "struct"

mutual
/-- The zero value of a target shape: what a field left unset by
`json.Unmarshal` holds. -/
def zeroValue : TargetShape → MatcherNode
  | .tString => .lit (.str "")
  | .tNumber => .lit (.num 0)
  | .tBool => .lit (.bool false)
  | .tList _ => .seq .nil
  | .tObject fs => .map (zeroFields fs)

/-- Zero values for each field of an object shape. -/
def zeroFields : ShapeFields → NodeMap
  | .nil => .nil
  | .cons k s tl => .cons k (zeroValue s) (zeroFields tl)
end

/-- Look up a key in a mapping node. -/
def NodeMap.find : NodeMap → String → Option MatcherNode
  | .nil, _ => none
  | .cons k v tl, q => if k = q then some v else NodeMap.find tl q

mutual
/-- Modelled from the spec: structural decode of reified content into a
target shape (spec 4.3 step 3; the source delegates to
`json.Marshal`/`json.Unmarshal` reflection, absent from src).  Kind
mismatches fail; `null` decodes to the shape's zero value; object decode
ignores extra keys and zero-fills missing ones, as `json.Unmarshal` does. -/
def decode : TargetShape → MatcherNode → Except String MatcherNode
  | shape, .lit .null => .ok (zeroValue shape)
  | .tString, .lit (.str s) => .ok (.lit (.str s))
  | .tNumber, .lit (.num n) => .ok (.lit (.num n))
  | .tBool, .lit (.bool b) => .ok (.lit (.bool b))
  | .tList e, .seq xs =>
    match decodeList e xs with
    | .error msg => .error msg
    | .ok ys => .ok (.seq ys)
  | .tObject fs, .map kvs =>
    match decodeFields fs kvs with
    | .error msg => .error msg
    | .ok kvs' => .ok (.map kvs')
  | shape, _ => .error ("cannot unmarshal value into " ++ shape.name)
termination_by s c => (sizeOf s, sizeOf c)

/-- Decode each element of a sequence against the element shape. -/
def decodeList : TargetShape → NodeList → Except String NodeList
  | _, .nil => .ok .nil
  | e, .cons hd tl =>
    match decode e hd with
    | .error msg => .error msg
    | .ok hd' =>
      match decodeList e tl with
      | .error msg => .error msg
      | .ok tl' => .ok (.cons hd' tl')
termination_by e xs => (sizeOf e, sizeOf xs)

/-- Decode the declared fields of an object shape from a mapping node. -/
def decodeFields : ShapeFields → NodeMap → Except String NodeMap
  | .nil, _ => .ok .nil
  | .cons k s tl, kvs =>
    match kvs.find k with
    | none =>
      match decodeFields tl kvs with
      | .error msg => .error msg
      | .ok rest => .ok (.cons k (zeroValue s) rest)
    | some v =>
      match decode s v with
      | .error msg => .error msg
      | .ok v' =>
        match decodeFields tl kvs with
        | .error msg => .error msg
        | .ok rest => .ok (.cons k v' rest)
termination_by fs kvs => (sizeOf fs, sizeOf kvs)
end

/-- Consumer test configuration (source `Config`, defined outside src;
the wrapper reads exactly these three fields). -/
structure Config where
  consumer : String
  provider : String
  pactDir : String
deriving DecidableEq

/-- The native message server handle: holds the consumer/provider pair it
was created for (source `mockserver.NewMessageServer(consumer, provider)`).
Messages are carried by their `Message` handles in this model, since all
mutation in src happens through the handle. -/
structure MessageServer where
  consumer : String
  provider : String
deriving DecidableEq

/-- Source `mockserver.NewMessageServer`. -/
def NewMessageServer (consumer provider : String) : MessageServer :=
  { consumer := consumer, provider := provider }

/-- Source `Pact`: configuration plus the native server handle. -/
structure Pact where
  config : Config
  messageserver : MessageServer
deriving DecidableEq

/-- Model of `filepath.Join` on two components. -/
def filepathJoin (a b : String) : String := a ++ "/" ++ b

/-- Source `validateConfig` (method on `Pact`, flattened to explicit
state): defaults an empty PactDir to `<cwd>/pacts`, creates the message
server from the configured pair, and never reports an error. -/
def validateConfig (config : Config) (cwd : String) :
    (Config × MessageServer) × Option GoErr :=
  let cfg :=
    if config.pactDir = "" then { config with pactDir := filepathJoin cwd "pacts" }
    else config
  ((cfg, NewMessageServer cfg.consumer cfg.provider), none)

/-- Source `NewMessagePact`: builds the Pact, validates configuration,
propagating a validation error if one were reported. -/
def NewMessagePact (config : Config) (cwd : String) : Except GoErr Pact :=
  match validateConfig config cwd with
  | (_, some e) => .error e
  | ((cfg, server), none) => .ok { config := cfg, messageserver := server }

/-- Source `Message`: the interaction state behind the native
`messageHandle`, and `Type` (the narrowing target recorded by `AsType`;
`none` models the default `interface{}`).  The handler is passed to
verification explicitly. -/
structure Message where
  interaction : MessageInteraction
  typ : Option TargetShape
deriving DecidableEq

/-- Source `AddAsynchronousMessage`: creates a fresh message bound to the
pact. -/
def Pact.AddAsynchronousMessage (p : Pact) : Pact × Message :=
  (p, { interaction := emptyInteraction, typ := none })

/-- Source `AddMessage` (deprecated): delegates to
`AddAsynchronousMessage`. -/
def Pact.AddMessage (p : Pact) : Pact × Message :=
  p.AddAsynchronousMessage

/-- Source `Message.Given`: appends a provider state. -/
def Message.Given (m : Message) (state : V3ProviderState) : Message :=
  { m with interaction :=
      { m.interaction with
        providerStates := m.interaction.providerStates ++ [state] } }

/-- Source `Message.ExpectsToReceive`: sets (overwrites) the description. -/
def Message.ExpectsToReceive (m : Message) (description : String) : Message :=
  { m with interaction := { m.interaction with description := description } }

/-- Source `Message.WithMetadata`: replaces the metadata wholesale. -/
def Message.WithMetadata (m : Message) (metadata : List (String × String)) :
    Message :=
  { m with interaction := { m.interaction with metadata := metadata } }

/-- Source `Message.WithJSONContent`: sets the content tree. -/
def Message.WithJSONContent (m : Message) (content : MatcherNode) : Message :=
  { m with interaction := { m.interaction with content := content } }

/-- Source `Message.AsType`: records the narrowing target. -/
def Message.AsType (m : Message) (t : TargetShape) : Message :=
  { m with typ := some t }

/-- The on-disk pact directory: file path to list of persisted
interactions. -/
abbrev FS := List (String × List MessageInteraction)

/-- Contents of the file at a path, if it exists. -/
def fsFind : FS → String → Option (List MessageInteraction)
  | [], _ => none
  | (p, c) :: tl, q => if p = q then some c else fsFind tl q

/-- Write contents at a path, replacing any existing file. -/
def fsSet : FS → String → List MessageInteraction → FS
  | [], p, c => [(p, c)]
  | (q, d) :: tl, p, c =>
    if q = p then (p, c) :: tl else (q, d) :: fsSet tl p c

/-- Deterministic pact file path for a consumer/provider pair
(spec section 6). -/
def pactFilePath (pactDir consumer provider : String) : String :=
  filepathJoin pactDir (consumer ++ "-" ++ provider ++ ".json")

/-- Modelled from the spec: the contract-store merge (spec 4.4), absent
from src.  Existing interactions are left untouched; new interactions are
de-duplicated by structural equality and appended when not already
present. -/
def mergeInteractions (old new : List MessageInteraction) :
    List MessageInteraction :=
  new.foldl (fun acc i => if i ∈ acc then acc else acc ++ [i]) old

/-- Modelled from the spec: the native `WritePactFile` (spec 4.4), absent
from src.  Resolves the pair's deterministic path; with `overwrite` false
it merges the new interactions with any existing file, otherwise it
replaces the file. -/
def WritePactFile (server : MessageServer) (toWrite : List MessageInteraction)
    (fs : FS) (pactDir : String) (overwrite : Bool) : Option GoErr × FS :=
  let path := pactFilePath pactDir server.consumer server.provider
  let contents :=
    if overwrite then toWrite
    else mergeInteractions ((fsFind fs path).getD []) toWrite
  (none, fsSet fs path contents)

/-- Source `AsynchronousMessage`: the reified message handed to the
consumer handler (spec's ReifiedMessage). -/
structure AsynchronousMessage where
  description : String
  content : MatcherNode
  metadata : List (String × String)
deriving DecidableEq

/-- Source `AsynchronousConsumer`: the user handler, returning `none` for
success or an error. -/
abbrev AsynchronousConsumer := AsynchronousMessage → Option GoErr

/-- Modelled from the spec: the native `ReifyMessage` (spec 4.3 step 1 and
4.2), absent from src.  Fails with `InvalidInteraction` when the
description is empty; otherwise reifies the content tree. -/
def ReifyMessage (i : MessageInteraction) : Except GoErr AsynchronousMessage :=
  if i.description = "" then .error .invalidInteraction
  else
    match reifyNode i.content with
    | .error e => .error e
    | .ok v =>
      .ok { description := i.description, content := v, metadata := i.metadata }

/-- Observable outcome of one verification call: the returned Go error
(`none` is success), the resulting pact directory, the messages passed to
the handler, and the `(pactDir, overwrite)` arguments of each
`WritePactFile` call. -/
structure VerifyOutcome where
  result : Option GoErr
  fs : FS
  handlerCalls : List AsynchronousMessage
  writeCalls : List (String × Bool)
deriving DecidableEq

/-- Source `verifyMessageConsumerRaw`: reify the interaction, narrow the
content when a target type was recorded (returning the narrowing error,
which embeds the decode error, on failure), invoke the handler, return its
error as-is if it fails, else write the pact file with overwrite false. -/
def verifyMessageConsumerRaw (p : Pact) (fs : FS) (messageToVerify : Message)
    (handler : AsynchronousConsumer) : VerifyOutcome :=
  match ReifyMessage messageToVerify.interaction with
  | .error e => { result := some e, fs := fs, handlerCalls := [], writeCalls := [] }
  | .ok m =>
    let narrowed : Except GoErr AsynchronousMessage :=
      match messageToVerify.typ with
      | none => .ok m
      | some shape =>
        match decode shape m.content with
        | .error derr => .error (.typeNarrow shape.name derr)
        | .ok v => .ok { m with content := v }
    match narrowed with
    | .error e => { result := some e, fs := fs, handlerCalls := [], writeCalls := [] }
    | .ok m2 =>
      match handler m2 with
      | some e =>
        { result := some e, fs := fs, handlerCalls := [m2], writeCalls := [] }
      | none =>
        let (werr, fs2) :=
          WritePactFile p.messageserver [messageToVerify.interaction] fs
            p.config.pactDir false
        { result := werr, fs := fs2, handlerCalls := [m2],
          writeCalls := [(p.config.pactDir, false)] }

/-! Concrete sample values, used to exercise the definitions. -/

/-- A sample configuration. -/
def sampleConfig : Config :=
  { consumer := "consumer", provider := "provider", pactDir := "/tmp/pacts" }

/-- A sample pact, as `NewMessagePact sampleConfig` produces it. -/
def samplePact : Pact :=
  { config := sampleConfig, messageserver := NewMessageServer "consumer" "provider" }

/-- Matcher-form content: `{"orderId": type("abc123"), "amount": type(42)}`. -/
def sampleContent : MatcherNode :=
  .map (.cons "orderId" (.rule .type (.lit (.str "abc123")))
    (.cons "amount" (.rule .type (.lit (.num 42))) .nil))

/-- The reified form of `sampleContent`. -/
def sampleReified : MatcherNode :=
  .map (.cons "orderId" (.lit (.str "abc123"))
    (.cons "amount" (.lit (.num 42)) .nil))

/-- A sample interaction with a non-empty description. -/
def sampleInteraction : MessageInteraction :=
  { description := "an order created event", providerStates := [],
    content := sampleContent, metadata := [] }

/-- A sample message carrying `sampleInteraction`, no narrowing target. -/
def sampleMessage : Message :=
  { interaction := sampleInteraction, typ := none }

/-! Branch characterizations of `verifyMessageConsumerRaw`. -/

/-- Reification failure short-circuits verification. -/
theorem verify_reify_error (p : Pact) (fs : FS) (msg : Message)
    (handler : AsynchronousConsumer) (e : GoErr)
    (hr : ReifyMessage msg.interaction = .error e) :
    verifyMessageConsumerRaw p fs msg handler =
      { result := some e, fs := fs, handlerCalls := [], writeCalls := [] } := by
  simp only [verifyMessageConsumerRaw, hr]

/-- No narrowing target, handler fails: its error is returned as-is. -/
theorem verify_plain_handler_error (p : Pact) (fs : FS) (msg : Message)
    (handler : AsynchronousConsumer) (m : AsynchronousMessage) (e : GoErr)
    (hr : ReifyMessage msg.interaction = .ok m) (ht : msg.typ = none)
    (hh : handler m = some e) :
    verifyMessageConsumerRaw p fs msg handler =
      { result := some e, fs := fs, handlerCalls := [m], writeCalls := [] } := by
  simp only [verifyMessageConsumerRaw, hr, ht, hh]

/-- No narrowing target, handler succeeds: the pact file is written with
overwrite false. -/
theorem verify_plain_success (p : Pact) (fs : FS) (msg : Message)
    (handler : AsynchronousConsumer) (m : AsynchronousMessage)
    (hr : ReifyMessage msg.interaction = .ok m) (ht : msg.typ = none)
    (hh : handler m = none) :
    verifyMessageConsumerRaw p fs msg handler =
      { result := (WritePactFile p.messageserver [msg.interaction] fs
                     p.config.pactDir false).1,
        fs := (WritePactFile p.messageserver [msg.interaction] fs
                 p.config.pactDir false).2,
        handlerCalls := [m], writeCalls := [(p.config.pactDir, false)] } := by
  simp only [verifyMessageConsumerRaw, hr, ht, hh]

/-- Narrowing target present, structural decode fails: the narrowing error
embedding the decode error is returned; the handler never runs. -/
theorem verify_narrow_error (p : Pact) (fs : FS) (msg : Message)
    (handler : AsynchronousConsumer) (m : AsynchronousMessage)
    (shape : TargetShape) (derr : String)
    (hr : ReifyMessage msg.interaction = .ok m) (ht : msg.typ = some shape)
    (hd : decode shape m.content = .error derr) :
    verifyMessageConsumerRaw p fs msg handler =
      { result := some (.typeNarrow shape.name derr), fs := fs,
        handlerCalls := [], writeCalls := [] } := by
  simp only [verifyMessageConsumerRaw, hr, ht, hd]

/-- Narrowing succeeds, handler fails on the narrowed message. -/
theorem verify_narrowed_handler_error (p : Pact) (fs : FS) (msg : Message)
    (handler : AsynchronousConsumer) (m : AsynchronousMessage)
    (shape : TargetShape) (v : MatcherNode) (e : GoErr)
    (hr : ReifyMessage msg.interaction = .ok m) (ht : msg.typ = some shape)
    (hd : decode shape m.content = .ok v)
    (hh : handler { m with content := v } = some e) :
    verifyMessageConsumerRaw p fs msg handler =
      { result := some e, fs := fs, handlerCalls := [{ m with content := v }],
        writeCalls := [] } := by
  simp only [verifyMessageConsumerRaw, hr, ht, hd, hh]

/-- Narrowing succeeds, handler succeeds on the narrowed message. -/
theorem verify_narrowed_success (p : Pact) (fs : FS) (msg : Message)
    (handler : AsynchronousConsumer) (m : AsynchronousMessage)
    (shape : TargetShape) (v : MatcherNode)
    (hr : ReifyMessage msg.interaction = .ok m) (ht : msg.typ = some shape)
    (hd : decode shape m.content = .ok v)
    (hh : handler { m with content := v } = none) :
    verifyMessageConsumerRaw p fs msg handler =
      { result := (WritePactFile p.messageserver [msg.interaction] fs
                     p.config.pactDir false).1,
        fs := (WritePactFile p.messageserver [msg.interaction] fs
                 p.config.pactDir false).2,
        handlerCalls := [{ m with content := v }],
        writeCalls := [(p.config.pactDir, false)] } := by
  simp only [verifyMessageConsumerRaw, hr, ht, hd, hh]

/-! Theorems. -/

/-- C9: `NewMessagePact` succeeds on every configuration — validation
never fails — and an empty `PactDir` is silently defaulted to the `pacts`
subdirectory of the current working directory. -/
theorem newMessagePact_never_fails (config : Config) (cwd : String) :
    NewMessagePact config cwd =
      .ok { config :=
              if config.pactDir = "" then
                { config with pactDir := filepathJoin cwd "pacts" }
              else config,
            messageserver := NewMessageServer config.consumer config.provider } := by
  by_cases h : config.pactDir = "" <;>
    simp [NewMessagePact, validateConfig, NewMessageServer, h]

/-- C10: the deprecated `AddMessage` is observationally equivalent to
`AddAsynchronousMessage`: same new message, same effect on the pact. -/
theorem addMessage_eq_addAsynchronousMessage (p : Pact) :
    p.AddMessage = p.AddAsynchronousMessage := rfl

/-- C3: reification is deterministic — two calls to `reifyNode` on the
same MatcherNode tree yield identical output. -/
theorem reify_deterministic (M : MatcherNode) (r₁ r₂ : Except GoErr MatcherNode)
    (h₁ : reifyNode M = r₁) (h₂ : reifyNode M = r₂) : r₁ = r₂ :=
  h₁ ▸ h₂ ▸ rfl

/-- Witness for C3 at `sampleContent`. -/
theorem reify_deterministic_witness :
    reifyNode sampleContent = .ok sampleReified :=
  reify_deterministic sampleContent _ _ rfl rfl

/-- C1: verifying an interaction whose description is empty fails with
`InvalidInteraction`; the handler is never invoked and the pact directory
is untouched (no write call is made). -/
theorem verify_empty_description (p : Pact) (fs : FS) (msg : Message)
    (handler : AsynchronousConsumer) (h : msg.interaction.description = "") :
    verifyMessageConsumerRaw p fs msg handler =
      { result := some .invalidInteraction, fs := fs,
        handlerCalls := [], writeCalls := [] } := by
  simp [verifyMessageConsumerRaw, ReifyMessage, h]

/-- Witness for C1 on a freshly created (empty) message. -/
theorem verify_empty_description_witness :
    verifyMessageConsumerRaw samplePact []
        { interaction := emptyInteraction, typ := none } (fun _ => none) =
      { result := some .invalidInteraction, fs := [],
        handlerCalls := [], writeCalls := [] } :=
  verify_empty_description samplePact [] _ _ rfl

/-- C2: when the handler returns an error, verification returns a failure,
no pact-file write is attempted, and the pact directory is unchanged. -/
theorem handler_failure_blocks_persistence (p : Pact) (fs : FS) (msg : Message)
    (handler : AsynchronousConsumer) (hfail : ∀ rm, (handler rm).isSome) :
    (verifyMessageConsumerRaw p fs msg handler).result.isSome = true ∧
    (verifyMessageConsumerRaw p fs msg handler).fs = fs ∧
    (verifyMessageConsumerRaw p fs msg handler).writeCalls = [] := by
  unfold verifyMessageConsumerRaw
  cases hr : ReifyMessage msg.interaction with
  | error e => simp
  | ok m =>
    cases ht : msg.typ with
    | none =>
      cases hh : handler m with
      | some e => simp [hh]
      | none => exact absurd (hfail m) (by simp [hh])
    | some shape =>
      cases hd : decode shape m.content with
      | error derr => simp [hd]
      | ok v =>
        cases hh : handler { m with content := v } with
        | some e => simp [hd, hh]
        | none => exact absurd (hfail { m with content := v }) (by simp [hh])

/-- Witness for C2: a handler that always fails leaves the pact directory
unchanged and produces no write call. -/
theorem handler_failure_blocks_persistence_witness :
    (verifyMessageConsumerRaw samplePact [] sampleMessage
        (fun _ => some (.userError "boom"))).result.isSome = true ∧
    (verifyMessageConsumerRaw samplePact [] sampleMessage
        (fun _ => some (.userError "boom"))).fs = [] ∧
    (verifyMessageConsumerRaw samplePact [] sampleMessage
        (fun _ => some (.userError "boom"))).writeCalls = [] :=
  handler_failure_blocks_persistence samplePact [] sampleMessage
    (fun _ => some (.userError "boom")) (fun _ => rfl)

/-- C6 counterexample: the source returns the handler's error verbatim
(`return err` at line 201), not a `HandlerError` wrapping it: at a concrete
interaction whose handler fails with `userError "boom"`, the verification
result is exactly that error, which differs from the wrapped form the
claim requires. -/
theorem handler_error_not_wrapped_counterexample :
    (verifyMessageConsumerRaw samplePact [] sampleMessage
        (fun _ => some (.userError "boom"))).result = some (.userError "boom") ∧
    some (GoErr.userError "boom") ≠
      some (GoErr.handlerError (.userError "boom")) := by
  exact ⟨rfl, by decide⟩

/-- C6 amended: when the handler returns an error `e`, verification
returns `e` itself — the handler's error verbatim, not a distinguishable
wrapper kind. -/
theorem handler_error_returned_verbatim (p : Pact) (fs : FS) (msg : Message)
    (handler : AsynchronousConsumer) (e : GoErr)
    (hfail : ∀ rm, handler rm = some e)
    (hcalled : (verifyMessageConsumerRaw p fs msg handler).handlerCalls ≠ []) :
    (verifyMessageConsumerRaw p fs msg handler).result = some e := by
  cases hr : ReifyMessage msg.interaction with
  | error err =>
    rw [verify_reify_error p fs msg handler err hr] at hcalled
    exact absurd rfl hcalled
  | ok m =>
    cases ht : msg.typ with
    | none =>
      rw [verify_plain_handler_error p fs msg handler m e hr ht (hfail m)]
    | some shape =>
      cases hd : decode shape m.content with
      | error derr =>
        rw [verify_narrow_error p fs msg handler m shape derr hr ht hd] at hcalled
        exact absurd rfl hcalled
      | ok v =>
        rw [verify_narrowed_handler_error p fs msg handler m shape v e hr ht hd
          (hfail _)]

/-- Witness for the amended C6 at a concrete failing handler. -/
theorem handler_error_returned_verbatim_witness :
    (verifyMessageConsumerRaw samplePact [] sampleMessage
        (fun _ => some (.userError "boom"))).result = some (.userError "boom") :=
  handler_error_returned_verbatim samplePact [] sampleMessage
    (fun _ => some (.userError "boom")) (.userError "boom")
    (fun _ => rfl) (by decide)

/-- C4: with a recorded target type, an incompatible reified content makes
verification fail with the narrowing error embedding the original decode
error, the handler never running; a successful decode hands the handler
the narrowed value in place of the generic content. -/
theorem asType_narrowing (p : Pact) (fs : FS) (msg : Message)
    (handler : AsynchronousConsumer) (shape : TargetShape)
    (m : AsynchronousMessage) (ht : msg.typ = some shape)
    (hr : ReifyMessage msg.interaction = .ok m) :
    (∀ derr, decode shape m.content = .error derr →
       verifyMessageConsumerRaw p fs msg handler =
         { result := some (.typeNarrow shape.name derr), fs := fs,
           handlerCalls := [], writeCalls := [] }) ∧
    (∀ v, decode shape m.content = .ok v →
       (verifyMessageConsumerRaw p fs msg handler).handlerCalls =
         [{ m with content := v }]) := by
  refine ⟨fun derr hd => verify_narrow_error p fs msg handler m shape derr hr ht hd,
    fun v hv => ?_⟩
  cases hh : handler { m with content := v } with
  | some e =>
    rw [verify_narrowed_handler_error p fs msg handler m shape v e hr ht hv hh]
  | none =>
    rw [verify_narrowed_success p fs msg handler m shape v hr ht hv hh]

/-- Witness for C4: narrowing an object content into `string` fails with
the narrowing error and the handler never runs. -/
theorem asType_narrowing_witness :
    verifyMessageConsumerRaw samplePact [] (sampleMessage.AsType .tString)
        (fun _ => none) =
      { result := some (.typeNarrow "string" "cannot unmarshal value into string"),
        fs := [], handlerCalls := [], writeCalls := [] } :=
  (asType_narrowing samplePact [] (sampleMessage.AsType .tString) (fun _ => none)
      .tString
      { description := "an order created event", content := sampleReified,
        metadata := [] }
      rfl rfl).1 "cannot unmarshal value into string" (by simp [decode, sampleReified, TargetShape.name])

/-! Contract-store lemmas. -/

/-- Reading back a freshly written path yields exactly what was written. -/
theorem fsFind_fsSet (fs : FS) (path : String) (c : List MessageInteraction) :
    fsFind (fsSet fs path c) path = some c := by
  induction fs with
  | nil => simp [fsSet, fsFind]
  | cons hd tl ih =>
    obtain ⟨q, d⟩ := hd
    by_cases h : q = path
    · simp [fsSet, fsFind, h]
    · simp [fsSet, fsFind, h, ih]

/-- Merging a single interaction always leaves it present in the result. -/
theorem mem_mergeInteractions_single (old : List MessageInteraction)
    (i : MessageInteraction) : i ∈ mergeInteractions old [i] := by
  by_cases h : i ∈ old <;> simp [mergeInteractions, h]

/-- Shared success-path characterization: a verification that returns no
error has written the merge of the existing file with the verified
interaction, through a single write call with overwrite false. -/
theorem verify_success_fs (p : Pact) (fs : FS) (msg : Message)
    (handler : AsynchronousConsumer)
    (hok : (verifyMessageConsumerRaw p fs msg handler).result = none) :
    (verifyMessageConsumerRaw p fs msg handler).fs =
      fsSet fs
        (pactFilePath p.config.pactDir p.messageserver.consumer
          p.messageserver.provider)
        (mergeInteractions
          ((fsFind fs (pactFilePath p.config.pactDir p.messageserver.consumer
              p.messageserver.provider)).getD [])
          [msg.interaction]) ∧
    (verifyMessageConsumerRaw p fs msg handler).writeCalls =
      [(p.config.pactDir, false)] := by
  cases hr : ReifyMessage msg.interaction with
  | error e =>
    rw [verify_reify_error p fs msg handler e hr] at hok
    exact absurd hok (by simp)
  | ok m =>
    cases ht : msg.typ with
    | none =>
      cases hh : handler m with
      | some e =>
        rw [verify_plain_handler_error p fs msg handler m e hr ht hh] at hok
        exact absurd hok (by simp)
      | none =>
        rw [verify_plain_success p fs msg handler m hr ht hh]
        exact ⟨by simp [WritePactFile], rfl⟩
    | some shape =>
      cases hd : decode shape m.content with
      | error derr =>
        rw [verify_narrow_error p fs msg handler m shape derr hr ht hd] at hok
        exact absurd hok (by simp)
      | ok v =>
        cases hh : handler { m with content := v } with
        | some e =>
          rw [verify_narrowed_handler_error p fs msg handler m shape v e
            hr ht hd hh] at hok
          exact absurd hok (by simp)
        | none =>
          rw [verify_narrowed_success p fs msg handler m shape v hr ht hd hh]
          exact ⟨by simp [WritePactFile], rfl⟩

/-- C5: a verification in which the handler succeeded performed exactly
one contract-store write, with overwrite false; afterwards the pair's file
holds the existing interactions merged with the original matcher-form
interaction, which is present in the file. -/
theorem success_appends_and_merges (p : Pact) (fs : FS) (msg : Message)
    (handler : AsynchronousConsumer)
    (hok : (verifyMessageConsumerRaw p fs msg handler).result = none) :
    (verifyMessageConsumerRaw p fs msg handler).writeCalls =
      [(p.config.pactDir, false)] ∧
    fsFind (verifyMessageConsumerRaw p fs msg handler).fs
        (pactFilePath p.config.pactDir p.messageserver.consumer
          p.messageserver.provider) =
      some (mergeInteractions
        ((fsFind fs (pactFilePath p.config.pactDir p.messageserver.consumer
            p.messageserver.provider)).getD [])
        [msg.interaction]) ∧
    msg.interaction ∈
      ((fsFind (verifyMessageConsumerRaw p fs msg handler).fs
          (pactFilePath p.config.pactDir p.messageserver.consumer
            p.messageserver.provider)).getD []) := by
  obtain ⟨hfs, hw⟩ := verify_success_fs p fs msg handler hok
  refine ⟨hw, ?_, ?_⟩
  · rw [hfs, fsFind_fsSet]
  · rw [hfs, fsFind_fsSet]
    exact mem_mergeInteractions_single _ _

/-- Witness for C5 on a fresh pact directory. -/
theorem success_appends_and_merges_witness :
    (verifyMessageConsumerRaw samplePact [] sampleMessage
        (fun _ => none)).writeCalls = [(samplePact.config.pactDir, false)] ∧
    fsFind (verifyMessageConsumerRaw samplePact [] sampleMessage
          (fun _ => none)).fs
        (pactFilePath samplePact.config.pactDir
          samplePact.messageserver.consumer samplePact.messageserver.provider) =
      some (mergeInteractions
        ((fsFind [] (pactFilePath samplePact.config.pactDir
            samplePact.messageserver.consumer
            samplePact.messageserver.provider)).getD [])
        [sampleMessage.interaction]) ∧
    sampleMessage.interaction ∈
      ((fsFind (verifyMessageConsumerRaw samplePact [] sampleMessage
            (fun _ => none)).fs
          (pactFilePath samplePact.config.pactDir
            samplePact.messageserver.consumer
            samplePact.messageserver.provider)).getD []) :=
  success_appends_and_merges samplePact [] sampleMessage (fun _ => none) rfl

/-- C7: on a fresh file, two successful verifications of the same
interaction leave exactly one copy of it in the persisted pact file. -/
theorem merge_idempotent (p : Pact) (fs : FS) (msg : Message)
    (handler : AsynchronousConsumer)
    (hfresh : fsFind fs (pactFilePath p.config.pactDir
        p.messageserver.consumer p.messageserver.provider) = none)
    (h1 : (verifyMessageConsumerRaw p fs msg handler).result = none)
    (h2 : (verifyMessageConsumerRaw p
        (verifyMessageConsumerRaw p fs msg handler).fs msg handler).result =
      none) :
    ((fsFind (verifyMessageConsumerRaw p
          (verifyMessageConsumerRaw p fs msg handler).fs msg handler).fs
        (pactFilePath p.config.pactDir p.messageserver.consumer
          p.messageserver.provider)).getD []).count msg.interaction = 1 := by
  obtain ⟨hfs1, -⟩ := verify_success_fs p fs msg handler h1
  obtain ⟨hfs2, -⟩ :=
    verify_success_fs p (verifyMessageConsumerRaw p fs msg handler).fs msg
      handler h2
  rw [hfs2, fsFind_fsSet, hfs1, fsFind_fsSet, hfresh]
  simp [mergeInteractions]

mutual
/-- Every node reification yields a tree free of rule annotations. -/
theorem reifyNode_noRule_aux : ∀ (M v : MatcherNode),
    reifyNode M = .ok v → hasRule v = false
  | .lit s, v, h => by
    simp only [reifyNode, Except.ok.injEq] at h
    subst h
    simp [hasRule]
  | .seq xs, v, h => by
    simp only [reifyNode] at h
    cases hx : reifyList xs with
    | error e => rw [hx] at h; simp at h
    | ok ys =>
      rw [hx] at h
      simp only [Except.ok.injEq] at h
      subst h
      simpa [hasRule] using reifyList_noRule_aux xs ys hx
  | .map kvs, v, h => by
    simp only [reifyNode] at h
    cases hx : reifyMap kvs with
    | error e => rw [hx] at h; simp at h
    | ok kvs' =>
      rw [hx] at h
      simp only [Except.ok.injEq] at h
      subst h
      simpa [hasRule] using reifyMap_noRule_aux kvs kvs' hx
  | .rule r ex, v, h => by
    cases r with
    | equality => exact reifyNode_noRule_aux ex v h
    | type => exact reifyNode_noRule_aux ex v h
    | regex pattern => exact reifyNode_noRule_aux ex v h
    | format spec => exact reifyNode_noRule_aux ex v h
    | unknown kind => simp [reifyNode] at h

/-- Every sequence reification yields elements free of rule annotations. -/
theorem reifyList_noRule_aux : ∀ (xs ys : NodeList),
    reifyList xs = .ok ys → hasRuleList ys = false
  | .nil, ys, h => by
    simp only [reifyList, Except.ok.injEq] at h
    subst h
    simp [hasRuleList]
  | .cons hd tl, ys, h => by
    simp only [reifyList] at h
    cases hh : reifyNode hd with
    | error e => rw [hh] at h; simp at h
    | ok hd' =>
      rw [hh] at h
      cases htl : reifyList tl with
      | error e => rw [htl] at h; simp at h
      | ok tl' =>
        rw [htl] at h
        simp only [Except.ok.injEq] at h
        subst h
        simp [hasRuleList, reifyNode_noRule_aux hd hd' hh,
          reifyList_noRule_aux tl tl' htl]

/-- Every mapping reification yields values free of rule annotations. -/
theorem reifyMap_noRule_aux : ∀ (kvs kvs' : NodeMap),
    reifyMap kvs = .ok kvs' → hasRuleMap kvs' = false
  | .nil, kvs', h => by
    simp only [reifyMap, Except.ok.injEq] at h
    subst h
    simp [hasRuleMap]
  | .cons k vNode tl, kvs', h => by
    simp only [reifyMap] at h
    cases hv : reifyNode vNode with
    | error e => rw [hv] at h; simp at h
    | ok v' =>
      rw [hv] at h
      cases htl : reifyMap tl with
      | error e => rw [htl] at h; simp at h
      | ok tl' =>
        rw [htl] at h
        simp only [Except.ok.injEq] at h
        subst h
        simp [hasRuleMap, reifyNode_noRule_aux vNode v' hv,
          reifyMap_noRule_aux tl tl' htl]
end

/-- C8: reification removes all matcher metadata: every rule-annotated
node is replaced by a plain concrete value, and the output — including
inside sequences and mappings — carries no MatchingRule tags. -/
theorem reify_removes_matcher_metadata (M v : MatcherNode)
    (h : reifyNode M = .ok v) : hasRule v = false :=
  reifyNode_noRule_aux M v h

/-- Witness for C8 on the sample matcher content. -/
theorem reify_removes_matcher_metadata_witness :
    hasRule sampleReified = false :=
  reify_removes_matcher_metadata sampleContent sampleReified rfl

/-- Witness for C7: a concrete double verification on an empty directory. -/
theorem merge_idempotent_witness :
    ((fsFind (verifyMessageConsumerRaw samplePact
          (verifyMessageConsumerRaw samplePact [] sampleMessage
            (fun _ => none)).fs sampleMessage (fun _ => none)).fs
        (pactFilePath samplePact.config.pactDir
          samplePact.messageserver.consumer
          samplePact.messageserver.provider)).getD
        []).count sampleMessage.interaction = 1 :=
  merge_idempotent samplePact [] sampleMessage (fun _ => none) rfl rfl rfl

end PactV3
